import Mathlib

/-!
Verification of the YActivePRO command-line client (ActiveProApi.py) against
its natural-language specification.  The Python class ActiveProAPI is a thin
RPC wrapper over a line-oriented TCP protocol; we embed its pure logic
(response-to-boolean mapping, mode alias conversion, time resolution, zoom
normalisation, filename extension handling, port discovery aggregation) as
Lean functions, and model the network side effects of each operation as an
explicit list of issued protocol commands.
-/

set_option maxRecDepth 4000

namespace ActiveProAPI

/-- Model of the Python str.lower() used throughout ActiveProApi.py: the
character-wise ASCII lowercase map over the string data. -/
def pyLower (s : String) : String :=
  String.mk (s.data.map Char.toLower)

/-- Kind tag for the three cursor-setting verbs SetCursorCurrent,
SetCursorX1 and SetCursorX2; their method bodies are identical up to the
verb name (ActiveProApi.py lines 432-475). -/
inductive CursorKind where
  | current
  | x1
  | x2
  deriving DecidableEq, Repr

/-- Protocol commands issued by the operations modelled in this file.
Each constructor corresponds to one command line written to the socket;
numeric arguments are carried as rationals (the exact values the Python
code computes before textual formatting). -/
inductive Cmd where
  | isCapturingQ
  | stopCaptureC
  | getCaptureTimeQ
  | setCursorC (k : CursorKind) (t : ℚ)
  | zoomFromC (s e : ℚ)
  | setD0ModeC (m : Nat)
  | setA0ModeC (m : Nat)
  | setA1ModeC (m : Nat)
  | openCaptureC (path : String)
  deriving DecidableEq, Repr

/-- Textual rendering of a command line, mirroring the f-strings of the
Python code.  Rendering of rational arguments is abstracted by fmt, the
textual formatting Python applies to floats. -/
def render (fmt : ℚ → String) : Cmd → String
  | .isCapturingQ => "isCapturing"
  | .stopCaptureC => "StopCapture"
  | .getCaptureTimeQ => "GetCaptureTime"
  | .setCursorC .current t => "SetCursorCurrent " ++ fmt t
  | .setCursorC .x1 t => "SetCursorX1 " ++ fmt t
  | .setCursorC .x2 t => "SetCursorX2 " ++ fmt t
  | .zoomFromC s e => "ZoomFrom " ++ fmt s ++ " " ++ fmt e
  | .setD0ModeC m => "SetD0Mode " ++ toString m
  | .setA0ModeC m => "SetA0Mode " ++ toString m
  | .setA1ModeC m => "SetA1Mode " ++ toString m
  | .openCaptureC p => "OpenCapture " ++ p

/-- Boolean computed by is_capturing from the raw isCapturing response
(line 213): response.lower() != "yes". -/
def is_capturing (r : String) : Bool :=
  !(pyLower r == "yes")

/-- Boolean computed by is_not_capturing from the raw isCapturing response
(line 223): response.lower() == "no". -/
def is_not_capturing (r : String) : Bool :=
  pyLower r == "no"

end ActiveProAPI

open ActiveProAPI

/-- C1: for every response string r, is_capturing is true exactly when the
lowercased response differs from yes, and is_not_capturing is true exactly
when the lowercased response equals no. -/
theorem c1_is_capturing_contract (r : String) :
    (is_capturing r = true ↔ pyLower r ≠ "yes") ∧
    (is_not_capturing r = true ↔ pyLower r = "no") := by
  constructor
  · simp [is_capturing]
  · simp [is_not_capturing]

/-- Witness for C1 at the concrete responses No and YES. -/
theorem c1_is_capturing_contract_witness :
    is_capturing "No" = true ∧ is_not_capturing "YES" = false := by
  constructor
  · exact (c1_is_capturing_contract "No").1.mpr (by decide)
  · have h := (c1_is_capturing_contract "YES").2
    revert h
    decide

/-- C10: is_capturing and is_not_capturing are not negations of each other:
on a response lowercasing to no both are true, and on a response lowercasing
to yes both are false. -/
theorem c10_not_negations (r : String) :
    (pyLower r = "no" →
      is_capturing r = true ∧ is_not_capturing r = true) ∧
    (pyLower r = "yes" →
      is_capturing r = false ∧ is_not_capturing r = false) := by
  constructor
  · intro h
    simp [is_capturing, is_not_capturing, h]
  · intro h
    simp [is_capturing, is_not_capturing, h]

/-- Witness for C10 at the concrete responses NO and Yes. -/
theorem c10_not_negations_witness :
    (is_capturing "NO" = true ∧ is_not_capturing "NO" = true) ∧
    (is_capturing "Yes" = false ∧ is_not_capturing "Yes" = false) :=
  ⟨(c10_not_negations "NO").1 (by decide),
   (c10_not_negations "Yes").2 (by decide)⟩

namespace ActiveProAPI

/-- Index of the last occurrence of a character in a list, or -1 when the
character does not occur; model of the Python str.rfind used by
os.path.splitext. -/
def rfind (ch : Char) : List Char → Int
  | [] => -1
  | c :: cs =>
      let r := rfind ch cs
      if 0 ≤ r then r + 1 else if c == ch then 0 else -1

/-- Model of the CPython posixpath.splitext algorithm: the extension starts
at the last dot, provided that dot lies after the last path separator and
the basename up to that dot is not made of dots only (so dotfiles such as
.bashrc carry no extension). -/
def splitext (p : List Char) : List Char × List Char :=
  let sepIndex := rfind '/' p
  let dotIndex := rfind '.' p
  if sepIndex < dotIndex then
    let base := (p.drop (sepIndex + 1).toNat).take (dotIndex - sepIndex - 1).toNat
    if base.any (fun c => !(c == '.')) then
      (p.take dotIndex.toNat, p.drop dotIndex.toNat)
    else (p, [])
  else (p, [])

/-- Model of get_absolute_path (lines 719-750): the default extension is
appended when it is non-empty and splitext finds no extension; the
subsequent platform-dependent absolute-path resolution (os.path.abspath,
cygpath, wslpath) is kept abstract as abspath. -/
def get_absolute_path (abspath : String → String)
    (path default_extension : String) : String :=
  abspath
    (if default_extension ≠ "" ∧ (splitext path.data).2 = [] then
       path ++ default_extension
     else path)

/-- Filename transmitted by open_capture (line 623): default .active. -/
def open_capture_path (ap : String → String) (f : String) : String :=
  get_absolute_path ap f ".active"

/-- Filename transmitted by save_capture (line 637): default .active. -/
def save_capture_path (ap : String → String) (f : String) : String :=
  get_absolute_path ap f ".active"

/-- Filename transmitted by save_between_cursors (line 651): default
.active. -/
def save_between_cursors_path (ap : String → String) (f : String) : String :=
  get_absolute_path ap f ".active"

/-- Filename transmitted by open_configuration (line 665): default
.active. -/
def open_configuration_path (ap : String → String) (f : String) : String :=
  get_absolute_path ap f ".active"

/-- Filename transmitted by save_configuration (line 679): default
.active. -/
def save_configuration_path (ap : String → String) (f : String) : String :=
  get_absolute_path ap f ".active"

/-- Filename transmitted by export_between_cursors (line 693): default
.csv. -/
def export_between_cursors_path (ap : String → String) (f : String) :
    String :=
  get_absolute_path ap f ".csv"

/-- Filename transmitted by save_screenshot (line 707): default .png. -/
def save_screenshot_path (ap : String → String) (f : String) : String :=
  get_absolute_path ap f ".png"

/-- Command trace issued by open_capture (lines 610-624): query the capture
state, stop when is_capturing holds of the response, then open the file.
The argument capResp is the instrument response to the isCapturing query
and abspath the platform path resolution. -/
def open_capture (capResp : String) (abspath : String → String)
    (filename : String) : List Cmd :=
  let path := get_absolute_path abspath filename ".active"
  if is_capturing capResp then
    [Cmd.isCapturingQ, Cmd.stopCaptureC, Cmd.openCaptureC path]
  else
    [Cmd.isCapturingQ, Cmd.openCaptureC path]

end ActiveProAPI

/-- Behaviour of get_absolute_path on the extension: appended exactly when
splitext reports no extension. -/
theorem get_absolute_path_spec (ap : String → String) (f e : String)
    (he : e ≠ "") :
    ((splitext f.data).2 = [] → get_absolute_path ap f e = ap (f ++ e)) ∧
    ((splitext f.data).2 ≠ [] → get_absolute_path ap f e = ap f) := by
  constructor
  · intro h
    simp only [get_absolute_path]
    rw [if_pos ⟨he, h⟩]
  · intro h
    simp only [get_absolute_path]
    rw [if_neg]
    intro hc
    exact h hc.2

/-- C9: for every filename, each file-oriented operation appends its default
extension exactly when splitext finds no extension in the filename (.active
for capture and configuration operations, .csv for export_between_cursors,
.png for save_screenshot); a filename already carrying an extension is
passed to path resolution unchanged. -/
theorem c9_default_extensions (ap : String → String) (f : String) :
    ((splitext f.data).2 = [] →
      open_capture_path ap f = ap (f ++ ".active") ∧
      save_capture_path ap f = ap (f ++ ".active") ∧
      save_between_cursors_path ap f = ap (f ++ ".active") ∧
      open_configuration_path ap f = ap (f ++ ".active") ∧
      save_configuration_path ap f = ap (f ++ ".active") ∧
      export_between_cursors_path ap f = ap (f ++ ".csv") ∧
      save_screenshot_path ap f = ap (f ++ ".png")) ∧
    ((splitext f.data).2 ≠ [] →
      open_capture_path ap f = ap f ∧
      save_capture_path ap f = ap f ∧
      save_between_cursors_path ap f = ap f ∧
      open_configuration_path ap f = ap f ∧
      save_configuration_path ap f = ap f ∧
      export_between_cursors_path ap f = ap f ∧
      save_screenshot_path ap f = ap f) := by
  constructor
  · intro h
    exact ⟨(get_absolute_path_spec ap f ".active" (by decide)).1 h,
      (get_absolute_path_spec ap f ".active" (by decide)).1 h,
      (get_absolute_path_spec ap f ".active" (by decide)).1 h,
      (get_absolute_path_spec ap f ".active" (by decide)).1 h,
      (get_absolute_path_spec ap f ".active" (by decide)).1 h,
      (get_absolute_path_spec ap f ".csv" (by decide)).1 h,
      (get_absolute_path_spec ap f ".png" (by decide)).1 h⟩
  · intro h
    exact ⟨(get_absolute_path_spec ap f ".active" (by decide)).2 h,
      (get_absolute_path_spec ap f ".active" (by decide)).2 h,
      (get_absolute_path_spec ap f ".active" (by decide)).2 h,
      (get_absolute_path_spec ap f ".active" (by decide)).2 h,
      (get_absolute_path_spec ap f ".active" (by decide)).2 h,
      (get_absolute_path_spec ap f ".csv" (by decide)).2 h,
      (get_absolute_path_spec ap f ".png" (by decide)).2 h⟩

/-- Witness for C9: the extensionless name test gains .active, while a.txt
keeps its extension through the export operation. -/
theorem c9_default_extensions_witness :
    open_capture_path id "test" = id ("test" ++ ".active") ∧
    export_between_cursors_path id "a.txt" = id "a.txt" :=
  ⟨((c9_default_extensions id "test").1 (by decide)).1,
   ((c9_default_extensions id "a.txt").2 (by decide)).2.2.2.2.2.1⟩

/-- C2 counterexample: when the instrument answers yes to the isCapturing
query, open_capture issues no StopCapture at all (is_capturing is the
inverted test response.lower() != yes, which is false on yes), contradicting
the claim that a yes answer makes StopCapture precede OpenCapture. -/
theorem c2_counterexample :
    open_capture "yes" id "test" =
      [Cmd.isCapturingQ, Cmd.openCaptureC "test.active"] ∧
    Cmd.stopCaptureC ∉ open_capture "yes" id "test" := by
  decide

/-- C2 amended: open_capture issues StopCapture before OpenCapture exactly
when the isCapturing response lowercased is NOT yes; when the instrument
answers yes (case-insensitive), no StopCapture is issued before the
OpenCapture command. -/
theorem c2_open_capture_stop_order (r : String) (ap : String → String)
    (f : String) :
    (pyLower r ≠ "yes" →
      open_capture r ap f =
        [Cmd.isCapturingQ, Cmd.stopCaptureC,
         Cmd.openCaptureC (get_absolute_path ap f ".active")]) ∧
    (pyLower r = "yes" →
      open_capture r ap f =
        [Cmd.isCapturingQ,
         Cmd.openCaptureC (get_absolute_path ap f ".active")]) := by
  constructor
  · intro h
    simp [open_capture, is_capturing, h]
  · intro h
    simp [open_capture, is_capturing, h]

/-- Witness for C2 at the concrete response no: StopCapture is issued and
precedes OpenCapture test.active. -/
theorem c2_open_capture_stop_order_witness :
    open_capture "no" id "test" =
      [Cmd.isCapturingQ, Cmd.stopCaptureC, Cmd.openCaptureC "test.active"] :=
  ((c2_open_capture_stop_order "no" id "test").1 (by decide)).trans (by decide)

namespace ActiveProAPI

/-- Characters removed by the Python str.strip() with no argument: ASCII
whitespace (the model restricts to the ASCII range actually produced by the
line protocol). -/
def isPySpace (c : Char) : Bool :=
  [' ', '\t', '\n', '\r', '\x0b', '\x0c'].contains c

/-- Model of str.strip(): drop whitespace from both ends. -/
def pyStrip (l : List Char) : List Char :=
  ((l.dropWhile isPySpace).reverse.dropWhile isPySpace).reverse

/-- Model of send_command (lines 112-132) at byte level: the transmitted
bytes are the command followed by one newline, and the returned text is the
single 4096-byte-bounded read of the pending socket data, stripped of
surrounding whitespace.  The first component is what is written to the
socket, the second the returned response. -/
def send_command (command : List Char) (pending : List Char) :
    List Char × List Char :=
  (command ++ ['\n'], pyStrip (pending.take 4096))

end ActiveProAPI

/-- Head of dropWhile never satisfies the dropped predicate. -/
theorem head_dropWhile_false {α : Type} (p : α → Bool) :
    ∀ (l : List α) (a : α), (l.dropWhile p).head? = some a → p a = false := by
  intro l
  induction l with
  | nil =>
      intro a h
      simp [List.dropWhile] at h
  | cons c cs ih =>
      intro a h
      by_cases hc : p c = true
      · rw [List.dropWhile_cons, if_pos hc] at h
        exact ih a h
      · rw [List.dropWhile_cons, if_neg hc] at h
        simp only [List.head?_cons, Option.some.injEq] at h
        subst h
        exact Bool.not_eq_true _ ▸ eq_false_of_ne_true hc

/-- The stripped response never ends in a whitespace character. -/
theorem pyStrip_getLast_not_space :
    ∀ (l : List Char) (a : Char),
      (pyStrip l).getLast? = some a → isPySpace a = false := by
  intro l a h
  unfold pyStrip at h
  rw [List.getLast?_reverse] at h
  exact head_dropWhile_false isPySpace _ a h

/-- C8: send_command writes exactly the command bytes followed by a single
newline, performs one read of at most 4096 bytes, returns that text with
surrounding whitespace stripped, and the returned value never ends in a
whitespace character (in particular never in a newline). -/
theorem c8_send_command (c pending : List Char) :
    (send_command c pending).1 = c ++ ['\n'] ∧
    (send_command c pending).2 = pyStrip (pending.take 4096) ∧
    ∀ a, ((send_command c pending).2).getLast? = some a →
      isPySpace a = false ∧ a ≠ '\n' := by
  refine ⟨rfl, rfl, ?_⟩
  intro a h
  have hf : isPySpace a = false := pyStrip_getLast_not_space _ a h
  refine ⟨hf, ?_⟩
  intro hn
  subst hn
  exact absurd hf (by decide)

/-- Witness for C8 on the command Hello with pending response text ending
in a newline: the framing and the stripped, newline-free return value. -/
theorem c8_send_command_witness :
    send_command "Hello".data "world! \n".data =
      ("Hello\n".data, "world!".data) ∧
    isPySpace '!' = false ∧ '!' ≠ '\n' :=
  ⟨by decide,
   (c8_send_command "Hello".data "world! \n".data).2.2 '!' (by decide)⟩

namespace ActiveProAPI

/-- Alias table of convert_d0_mode and convert_d1_mode (lines 818, 836). -/
def d0_mode_map : List (String × Nat) :=
  [("tristate", 0), ("0v", 1), ("3.3v", 2), ("pwm", 3)]

/-- Alias table of convert_a0_mode (lines 762-770). -/
def a0_mode_map : List (String × Nat) :=
  [("tristate", 0), ("0v", 1), ("1v", 2), ("2v", 3), ("3v", 4),
   ("3.3v", 5), ("dc", 6)]

/-- Alias table of convert_a1_mode (lines 788-800). -/
def a1_mode_map : List (String × Nat) :=
  [("tristate", 0), ("0v", 1), ("1v", 2), ("2v", 3), ("3v", 4),
   ("3.3v", 5), ("dc", 6), ("ramp", 7), ("sine", 8), ("square", 9),
   ("triangle", 10)]

/-- Conversion of a textual D0 mode (lines 808-824, string branch):
lowercase, look up the alias table, otherwise raise ValueError naming the
offending token. -/
def convert_d0_mode (s : String) : Except String Nat :=
  let m := pyLower s
  match d0_mode_map.lookup m with
  | some v => .ok v
  | none => .error ("Invalid D0 mode: " ++ m)

/-- Conversion of a textual A0 mode (lines 752-776, string branch). -/
def convert_a0_mode (s : String) : Except String Nat :=
  let m := pyLower s
  match a0_mode_map.lookup m with
  | some v => .ok v
  | none => .error ("Invalid A0 mode: " ++ m)

/-- Conversion of a textual A1 mode (lines 778-806, string branch). -/
def convert_a1_mode (s : String) : Except String Nat :=
  let m := pyLower s
  match a1_mode_map.lookup m with
  | some v => .ok v
  | none => .error ("Invalid A1 mode: " ++ m)

/-- CLI handling of a textual D0 mode argument (lines 1484-1490): convert
first, and only on success send the single SetD0Mode command; a ValueError
aborts before any command is sent. -/
def cli_set_d0_mode (s : String) : Except String (List Cmd) :=
  match convert_d0_mode s with
  | .ok m => .ok [Cmd.setD0ModeC m]
  | .error e => .error e

/-- CLI handling of a textual A0 mode argument (lines 1506-1512). -/
def cli_set_a0_mode (s : String) : Except String (List Cmd) :=
  match convert_a0_mode s with
  | .ok m => .ok [Cmd.setA0ModeC m]
  | .error e => .error e

/-- CLI handling of a textual A1 mode argument (lines 1517-1523). -/
def cli_set_a1_mode (s : String) : Except String (List Cmd) :=
  match convert_a1_mode s with
  | .ok m => .ok [Cmd.setA1ModeC m]
  | .error e => .error e

end ActiveProAPI

/-- C5: the CLI path for set_d0_mode with argument PWM converts the alias
and sends exactly the single command line SetD0Mode 3, while the argument
bogus is rejected with the ValueError message before any command is
produced. -/
theorem c5_set_d0_mode_pwm :
    cli_set_d0_mode "PWM" = .ok [Cmd.setD0ModeC 3] ∧
    (∀ fmt, render fmt (Cmd.setD0ModeC 3) = "SetD0Mode 3") ∧
    cli_set_d0_mode "bogus" = .error "Invalid D0 mode: bogus" := by
  refine ⟨rfl, fun fmt => rfl, rfl⟩

/-- Lookup in the concrete A1 alias table of any declared pair. -/
theorem a1_mode_map_lookup {k : String} {v : Nat}
    (hm : (k, v) ∈ a1_mode_map) : a1_mode_map.lookup k = some v := by
  have h : ∀ kv ∈ a1_mode_map, a1_mode_map.lookup kv.1 = some kv.2 := by
    decide
  exact h (k, v) hm

/-- Lookup in the concrete A0 alias table of any declared pair. -/
theorem a0_mode_map_lookup {k : String} {v : Nat}
    (hm : (k, v) ∈ a0_mode_map) : a0_mode_map.lookup k = some v := by
  have h : ∀ kv ∈ a0_mode_map, a0_mode_map.lookup kv.1 = some kv.2 := by
    decide
  exact h (k, v) hm

/-- C6: mode alias conversion is case-insensitive (the result depends only
on the lowercased input), total over the declared alias tables (every
declared pair is recognised, in particular SINE and sine both map to 8),
and every string outside the declared set produces the ValueError message
naming the offending lowercased token; in the CLI handlers this error
aborts before any command is produced. -/
theorem c6_mode_alias_conversion :
    (∀ s t : String, pyLower s = pyLower t →
      convert_a0_mode s = convert_a0_mode t ∧
      convert_a1_mode s = convert_a1_mode t) ∧
    (convert_a1_mode "SINE" = .ok 8 ∧ convert_a1_mode "sine" = .ok 8) ∧
    (∀ s k v, (k, v) ∈ a1_mode_map → pyLower s = k →
      convert_a1_mode s = .ok v) ∧
    (∀ s k v, (k, v) ∈ a0_mode_map → pyLower s = k →
      convert_a0_mode s = .ok v) ∧
    (∀ s, a1_mode_map.lookup (pyLower s) = none →
      convert_a1_mode s = .error ("Invalid A1 mode: " ++ pyLower s)) ∧
    (∀ s, a0_mode_map.lookup (pyLower s) = none →
      convert_a0_mode s = .error ("Invalid A0 mode: " ++ pyLower s)) ∧
    (∀ s e, convert_a1_mode s = .error e → cli_set_a1_mode s = .error e) ∧
    (∀ s e, convert_a0_mode s = .error e → cli_set_a0_mode s = .error e) := by
  refine ⟨?_, ⟨rfl, rfl⟩, ?_, ?_, ?_, ?_, ?_, ?_⟩
  · intro s t h
    constructor
    · unfold convert_a0_mode
      rw [h]
    · unfold convert_a1_mode
      rw [h]
  · intro s k v hm hl
    unfold convert_a1_mode
    dsimp only
    rw [hl, a1_mode_map_lookup hm]
  · intro s k v hm hl
    unfold convert_a0_mode
    dsimp only
    rw [hl, a0_mode_map_lookup hm]
  · intro s h
    unfold convert_a1_mode
    dsimp only
    rw [h]
  · intro s h
    unfold convert_a0_mode
    dsimp only
    rw [h]
  · intro s e h
    unfold cli_set_a1_mode
    rw [h]
  · intro s e h
    unfold cli_set_a0_mode
    rw [h]

/-- Witness for C6: case-invariance applied at SINE versus sine, totality
applied at Ramp, and the error path applied at bogus, both at the converter
and at the CLI handler. -/
theorem c6_mode_alias_conversion_witness :
    convert_a1_mode "SINE" = convert_a1_mode "sine" ∧
    convert_a1_mode "Ramp" = .ok 7 ∧
    convert_a0_mode "DC" = .ok 6 ∧
    convert_a1_mode "bogus" = .error ("Invalid A1 mode: " ++ pyLower "bogus") ∧
    cli_set_a1_mode "bogus" = .error ("Invalid A1 mode: " ++ pyLower "bogus") :=
  ⟨(c6_mode_alias_conversion.1 "SINE" "sine" (by decide)).2,
   c6_mode_alias_conversion.2.2.1 "Ramp" "ramp" 7 (by decide) (by decide),
   c6_mode_alias_conversion.2.2.2.1 "DC" "dc" 6 (by decide) (by decide),
   c6_mode_alias_conversion.2.2.2.2.1 "bogus" (by decide),
   c6_mode_alias_conversion.2.2.2.2.2.2.1 "bogus" _
     (c6_mode_alias_conversion.2.2.2.2.1 "bogus" (by decide))⟩

namespace ActiveProAPI

/-- Command trace of set_cursor_current, set_cursor_x1 and set_cursor_x2
(lines 432-475): a negative time queries GetCaptureTime and replaces the
argument by max(captureTime + time, 0); the parameter c stands for the
float value parsed from the GetCaptureTime response. -/
def set_cursor (k : CursorKind) (c t : ℚ) : List Cmd :=
  if t < 0 then
    [Cmd.getCaptureTimeQ, Cmd.setCursorC k (max (c + t) 0)]
  else
    [Cmd.setCursorC k t]

/-- Endpoint resolution and ordering performed by zoom_from
(lines 497-506): negative endpoints become max(captureTime + x, 0) and the
pair is swapped when out of order. -/
def zoomResolve (c s e : ℚ) : ℚ × ℚ :=
  let s1 := if s < 0 then max (c + s) 0 else s
  let e1 := if e < 0 then max (c + e) 0 else e
  if e1 < s1 then (e1, s1) else (s1, e1)

/-- Final endpoint pair carried by the ZoomFrom command (lines 497-513):
after resolution and ordering, a degenerate pair at 0 becomes
(0, min(0.001, captureTime)) and a degenerate pair at v becomes
(max(v - 0.001, 0), v). -/
def zoomPair (c s e : ℚ) : ℚ × ℚ :=
  let p := zoomResolve c s e
  if p.1 = p.2 then
    if p.1 = 0 then (p.1, min (1 / 1000) c)
    else (max (p.2 - 1 / 1000) 0, p.2)
  else p

/-- Command trace of zoom_from (lines 486-513): one GetCaptureTime query
when an endpoint is negative, one more when the resolved pair is degenerate
at 0, then the ZoomFrom command with the final pair. -/
def zoom_from (c s e : ℚ) : List Cmd :=
  (if s < 0 ∨ e < 0 then [Cmd.getCaptureTimeQ] else []) ++
  (if (zoomResolve c s e).1 = (zoomResolve c s e).2 ∧
      (zoomResolve c s e).1 = 0 then [Cmd.getCaptureTimeQ] else []) ++
  [Cmd.zoomFromC (zoomPair c s e).1 (zoomPair c s e).2]

end ActiveProAPI

/-- The resolved, ordered pair is nonnegative and sorted. -/
theorem zoomResolve_nonneg_sorted (c s e : ℚ) :
    0 ≤ (zoomResolve c s e).1 ∧
    (zoomResolve c s e).1 ≤ (zoomResolve c s e).2 := by
  unfold zoomResolve
  dsimp only
  set s1 := if s < 0 then max (c + s) 0 else s with hs1def
  set e1 := if e < 0 then max (c + e) 0 else e with he1def
  have hs1 : 0 ≤ s1 := by
    rw [hs1def]
    split_ifs with h
    · exact le_max_right _ _
    · exact not_lt.1 h
  have he1 : 0 ≤ e1 := by
    rw [he1def]
    split_ifs with h
    · exact le_max_right _ _
    · exact not_lt.1 h
  by_cases h : e1 < s1
  · rw [if_pos h]
    exact ⟨he1, le_of_lt h⟩
  · rw [if_neg h]
    exact ⟨hs1, not_lt.1 h⟩

/-- Unfolding of zoomPair in terms of zoomResolve. -/
theorem zoomPair_eq (c s e : ℚ) :
    zoomPair c s e =
      if (zoomResolve c s e).1 = (zoomResolve c s e).2 then
        (if (zoomResolve c s e).1 = 0 then
           ((zoomResolve c s e).1, min (1 / 1000) c)
         else (max ((zoomResolve c s e).2 - 1 / 1000) 0,
               (zoomResolve c s e).2))
      else zoomResolve c s e := rfl

/-- C3 counterexample: with capture duration 1, the inputs (5, 7) are sent
unchanged, so the transmitted end 7 exceeds the capture duration; and the
equal inputs (0.0005, 0.0005) produce the pair (0, 0.0005) of width 0.0005,
below 0.001 although the duration 1 is at least 0.001. -/
theorem c3_counterexample :
    ((0:ℚ) ≤ 1 ∧ zoomPair 1 5 7 = (5, 7) ∧ ¬((zoomPair 1 5 7).2 ≤ 1)) ∧
    (zoomPair 1 (1 / 2000) (1 / 2000) = (0, 1 / 2000) ∧
     (1 / 1000 : ℚ) ≤ 1 ∧
     ¬((1 / 1000 : ℚ) ≤
        (zoomPair 1 (1 / 2000) (1 / 2000)).2 -
          (zoomPair 1 (1 / 2000) (1 / 2000)).1)) := by
  norm_num [zoomPair, zoomResolve]

/-- C3 amended: for capture duration C at least 0, the ZoomFrom command
carries a sorted nonnegative pair (the upper end is NOT clamped to C);
when the resolved ordered endpoints coincide at 0 the transmitted width is
exactly min(0.001, C), hence at least 0.001 whenever C is; when they
coincide at a positive v the width is exactly min(v, 0.001). -/
theorem c3_zoom_from_bounds (c s e : ℚ) (hc : 0 ≤ c) :
    0 ≤ (zoomPair c s e).1 ∧
    (zoomPair c s e).1 ≤ (zoomPair c s e).2 ∧
    (zoomResolve c s e = (0, 0) →
      (zoomPair c s e).2 - (zoomPair c s e).1 = min (1 / 1000) c) ∧
    (∀ v : ℚ, 0 < v → zoomResolve c s e = (v, v) →
      (zoomPair c s e).2 - (zoomPair c s e).1 = min v (1 / 1000)) := by
  obtain ⟨h1, h2⟩ := zoomResolve_nonneg_sorted c s e
  by_cases heq : (zoomResolve c s e).1 = (zoomResolve c s e).2
  · by_cases hz : (zoomResolve c s e).1 = 0
    · have hzp : zoomPair c s e = ((zoomResolve c s e).1, min (1 / 1000) c) := by
        rw [zoomPair_eq, if_pos heq, if_pos hz]
      refine ⟨?_, ?_, ?_, ?_⟩
      · rw [hzp]
        exact h1
      · rw [hzp, hz]
        exact le_min (by norm_num) hc
      · intro h
        rw [hzp, hz]
        norm_num
      · intro v hv h
        rw [h] at hz
        exact absurd hz (ne_of_gt hv)
    · have hzp : zoomPair c s e =
          (max ((zoomResolve c s e).2 - 1 / 1000) 0, (zoomResolve c s e).2) := by
        rw [zoomPair_eq, if_pos heq, if_neg hz]
      refine ⟨?_, ?_, ?_, ?_⟩
      · rw [hzp]
        exact le_max_right _ _
      · rw [hzp]
        exact max_le (by linarith [le_trans h1 h2]) (le_trans h1 h2)
      · intro h
        rw [h] at hz
        exact absurd rfl hz
      · intro v hv h
        rw [h] at hzp
        rw [hzp]
        dsimp only
        rcases le_total (1 / 1000 : ℚ) v with hle | hle
        · rw [max_eq_left (by linarith), min_eq_right hle]
          ring
        · rw [max_eq_right (by linarith), min_eq_left hle]
          ring
  · have hzp : zoomPair c s e = zoomResolve c s e := by
      rw [zoomPair_eq, if_neg heq]
    refine ⟨?_, ?_, ?_, ?_⟩
    · rw [hzp]
      exact h1
    · rw [hzp]
      exact h2
    · intro h
      rw [h] at heq
      exact absurd rfl heq
    · intro v hv h
      rw [h] at heq
      exact absurd rfl heq

/-- Witness for C3: sortedness of the resolved pair at inputs (-1, 3) with
capture duration 2, and the exact minimal width at the degenerate inputs
(0, 0) with capture duration 1. -/
theorem c3_zoom_from_bounds_witness :
    (0 ≤ (zoomPair 2 (-1) 3).1 ∧
     (zoomPair 2 (-1) 3).1 ≤ (zoomPair 2 (-1) 3).2) ∧
    (zoomPair 1 0 0).2 - (zoomPair 1 0 0).1 = min (1 / 1000) 1 :=
  ⟨⟨(c3_zoom_from_bounds 2 (-1) 3 (by norm_num)).1,
    (c3_zoom_from_bounds 2 (-1) 3 (by norm_num)).2.1⟩,
   (c3_zoom_from_bounds 1 0 0 (by norm_num)).2.2.1
     (by norm_num [zoomResolve])⟩

/-- C4 counterexample: zoom_from with both arguments 0 (hence nonnegative)
still performs a GetCaptureTime round-trip and does not use the arguments
unchanged: with capture duration 1 it sends ZoomFrom 0 0.001. -/
theorem c4_counterexample :
    ((0:ℚ) ≤ 0) ∧
    zoom_from 1 0 0 = [Cmd.getCaptureTimeQ, Cmd.zoomFromC 0 (1 / 1000)] ∧
    Cmd.getCaptureTimeQ ∈ zoom_from 1 0 0 := by
  have h : zoom_from 1 0 0 =
      [Cmd.getCaptureTimeQ, Cmd.zoomFromC 0 (1 / 1000)] := by
    norm_num [zoom_from, zoomResolve, zoomPair]
  exact ⟨le_refl 0, h, by rw [h]; exact List.mem_cons_self _ _⟩

/-- C4 amended: the cursor-setting operations use a nonnegative time
unchanged with no GetCaptureTime round-trip, and resolve a negative time t
to max(C + t, 0) after one GetCaptureTime query; zoom_from behaves the same
way on its endpoints, querying GetCaptureTime first when an endpoint is
negative, except that the degenerate call with both arguments 0 performs an
additional GetCaptureTime round-trip and sends ZoomFrom 0 min(0.001, C). -/
theorem c4_resolve_relative_time :
    (∀ (k : CursorKind) (c t : ℚ), 0 ≤ t →
      set_cursor k c t = [Cmd.setCursorC k t]) ∧
    (∀ (k : CursorKind) (c t : ℚ), t < 0 →
      set_cursor k c t =
        [Cmd.getCaptureTimeQ, Cmd.setCursorC k (max (c + t) 0)]) ∧
    (∀ c s e : ℚ, 0 ≤ s → 0 ≤ e → ¬(s = 0 ∧ e = 0) →
      zoom_from c s e =
        [Cmd.zoomFromC (zoomPair c s e).1 (zoomPair c s e).2]) ∧
    (∀ c s e : ℚ, (s < 0 ∨ e < 0) →
      (zoom_from c s e).head? = some Cmd.getCaptureTimeQ) ∧
    (∀ c : ℚ, zoom_from c 0 0 =
      [Cmd.getCaptureTimeQ, Cmd.zoomFromC 0 (min (1 / 1000) c)]) := by
  refine ⟨?_, ?_, ?_, ?_, ?_⟩
  · intro k c t h
    unfold set_cursor
    rw [if_neg (not_lt.2 h)]
  · intro k c t h
    unfold set_cursor
    rw [if_pos h]
  · intro c s e hs he hne
    have h1 : ¬(s < 0 ∨ e < 0) := by
      push_neg
      exact ⟨hs, he⟩
    have hres : zoomResolve c s e = if e < s then (e, s) else (s, e) := by
      unfold zoomResolve
      dsimp only
      rw [if_neg (not_lt.2 hs), if_neg (not_lt.2 he)]
    have h2 : ¬((zoomResolve c s e).1 = (zoomResolve c s e).2 ∧
        (zoomResolve c s e).1 = 0) := by
      rw [hres]
      by_cases hlt : e < s
      · rw [if_pos hlt]
        dsimp only
        rintro ⟨hq, -⟩
        exact absurd hq (ne_of_lt hlt)
      · rw [if_neg hlt]
        dsimp only
        rintro ⟨hq, hz⟩
        exact hne ⟨hz, hq ▸ hz⟩
    unfold zoom_from
    rw [if_neg h1, if_neg h2]
    simp
  · intro c s e h
    unfold zoom_from
    rw [if_pos h]
    rfl
  · intro c
    have hres : zoomResolve c 0 0 = (0, 0) := by
      norm_num [zoomResolve]
    have hp : zoomPair c 0 0 = (0, min (1 / 1000) c) := by
      rw [zoomPair_eq, hres]
      norm_num
    unfold zoom_from
    rw [hres, hp]
    norm_num

/-- Witness for C4: a nonnegative cursor time is transmitted unchanged, a
negative one is resolved against the capture duration, a non-degenerate
nonnegative zoom issues only the ZoomFrom command, and the degenerate zoom
at 0 issues the extra GetCaptureTime query. -/
theorem c4_resolve_relative_time_witness :
    set_cursor CursorKind.current 10 3 =
      [Cmd.setCursorC CursorKind.current 3] ∧
    set_cursor CursorKind.x1 10 (-2) =
      [Cmd.getCaptureTimeQ,
       Cmd.setCursorC CursorKind.x1 (max (10 + (-2)) 0)] ∧
    zoom_from 5 1 2 = [Cmd.zoomFromC (zoomPair 5 1 2).1 (zoomPair 5 1 2).2] ∧
    zoom_from 1 0 0 =
      [Cmd.getCaptureTimeQ, Cmd.zoomFromC 0 (min (1 / 1000) 1)] :=
  ⟨c4_resolve_relative_time.1 CursorKind.current 10 3 (by norm_num),
   c4_resolve_relative_time.2.1 CursorKind.x1 10 (-2) (by norm_num),
   c4_resolve_relative_time.2.2.1 5 1 2 (by norm_num) (by norm_num)
     (by norm_num),
   c4_resolve_relative_time.2.2.2.2 1⟩

namespace ActiveProAPI

/-- Outcome of one discovery probe (check_port, lines 143-154): the
connection attempt succeeds (connect_ex returns 0), is refused or times out
(connect_ex nonzero), or raises an exception. -/
inductive ProbeOutcome where
  | connected
  | refused
  | failed
  deriving DecidableEq, Repr

/-- Model of check_port: returns the port on a successful connection; a
refusal returns None, and an exception is caught, logged and also turned
into None. -/
def check_port (probe : Nat → ProbeOutcome) (p : Nat) : Option Nat :=
  match probe p with
  | .connected => some p
  | .refused => none
  | .failed => none

/-- The candidate ports probed by find_available_ports (line 159):
range(37800, 37811). -/
def candidate_ports : List Nat := List.range' 37800 11

/-- Model of find_available_ports (lines 134-167): aggregate the probe
results over all candidate ports, inserting id = port - 37800 + 1 for each
truthy (nonzero) returned port.  The association list is keyed by distinct
ids, so its content is independent of the completion order of the
concurrent probes, which we therefore model in port order. -/
def find_available_ports (probe : Nat → ProbeOutcome) : List (Nat × Nat) :=
  candidate_ports.foldl
    (fun acc p =>
      match check_port probe p with
      | some q => if q ≠ 0 then acc ++ [(q - 37800 + 1, q)] else acc
      | none => acc)
    []

/-- Contribution of a single probed port to the discovery result. -/
def fap_entry (probe : Nat → ProbeOutcome) (p : Nat) : List (Nat × Nat) :=
  match check_port probe p with
  | some q => if q ≠ 0 then [(q - 37800 + 1, q)] else []
  | none => []

end ActiveProAPI

/-- The discovery fold is the concatenation of the per-port
contributions. -/
theorem find_available_ports_foldl (probe : Nat → ProbeOutcome)
    (l : List Nat) (a : List (Nat × Nat)) :
    l.foldl
      (fun acc p =>
        match check_port probe p with
        | some q => if q ≠ 0 then acc ++ [(q - 37800 + 1, q)] else acc
        | none => acc) a
    = a ++ (l.map (fap_entry probe)).flatten := by
  induction l generalizing a with
  | nil => simp
  | cons p ps ih =>
      rw [List.foldl_cons, ih, List.map_cons, List.flatten_cons]
      cases hcp : check_port probe p with
      | none => simp [fap_entry, hcp]
      | some q =>
          by_cases hq : q ≠ 0
          · simp [fap_entry, hcp, hq, List.append_assoc]
          · simp [fap_entry, hcp, hq]

/-- Membership in the contribution of a single probed port. -/
theorem fap_entry_mem (probe : Nat → ProbeOutcome) (q id p : Nat) :
    (id, p) ∈ fap_entry probe q ↔
      probe q = ProbeOutcome.connected ∧ q ≠ 0 ∧
      id = q - 37800 + 1 ∧ p = q := by
  unfold fap_entry check_port
  cases hpq : probe q with
  | connected =>
      by_cases hq : q ≠ 0
      · simp [hq, Prod.mk.injEq]
      · simp [hq]
  | refused => simp
  | failed => simp

/-- C7: find_available_ports probes the 11 candidate ports 37800..37810 and
its result holds exactly the pairs (port - 37800 + 1, port) for live ports
in that range; probes that raise are swallowed as not available, so a run
where every probe fails still returns the empty mapping, and the live set
{37801, 37805} yields exactly {2: 37801, 6: 37805}. -/
theorem c7_find_available_ports :
    (∀ (probe : Nat → ProbeOutcome) (id p : Nat),
      (id, p) ∈ find_available_ports probe ↔
        (37800 ≤ p ∧ p ≤ 37810 ∧ probe p = ProbeOutcome.connected ∧
         id = p - 37800 + 1)) ∧
    find_available_ports
        (fun p => if p = 37801 ∨ p = 37805 then ProbeOutcome.connected
         else ProbeOutcome.refused) = [(2, 37801), (6, 37805)] ∧
    (∀ probe : Nat → ProbeOutcome, (∀ p, probe p = ProbeOutcome.failed) →
      find_available_ports probe = []) := by
  refine ⟨?_, ?_, ?_⟩
  · intro probe id p
    unfold find_available_ports
    rw [find_available_ports_foldl, List.nil_append, List.mem_flatten]
    constructor
    · rintro ⟨l, hl, hm⟩
      rw [List.mem_map] at hl
      obtain ⟨q, hq, rfl⟩ := hl
      rw [fap_entry_mem] at hm
      obtain ⟨hc, hq0, hid, rfl⟩ := hm
      rw [candidate_ports, List.mem_range'_1] at hq
      exact ⟨hq.1, by omega, hc, hid⟩
    · rintro ⟨h1, h2, hc, hid⟩
      refine ⟨fap_entry probe p, List.mem_map_of_mem _ ?_, ?_⟩
      · rw [candidate_ports, List.mem_range'_1]
        omega
      · rw [fap_entry_mem]
        exact ⟨hc, by omega, hid, rfl⟩
  · rfl
  · intro probe h
    have hent : ∀ q, fap_entry probe q = [] := by
      intro q
      unfold fap_entry check_port
      rw [h q]
    unfold find_available_ports
    rw [find_available_ports_foldl, List.nil_append]
    simp [candidate_ports, List.range', hent]

/-- Witness for C7: discovery returns the empty mapping when every probe
raises, and the live pair (6, 37805) is recognised by the membership
characterisation. -/
theorem c7_find_available_ports_witness :
    find_available_ports (fun _ => ProbeOutcome.failed) = [] ∧
    (6, 37805) ∈ find_available_ports
      (fun p => if p = 37801 ∨ p = 37805 then ProbeOutcome.connected
       else ProbeOutcome.refused) :=
  ⟨c7_find_available_ports.2.2 _ (fun _ => rfl),
   (c7_find_available_ports.1 _ 6 37805).mpr
     ⟨by norm_num, by norm_num, by norm_num, by norm_num⟩⟩
